import Mathlib

set_option linter.unusedVariables false

/-!
A shallow embedding of the Omer-counting core of the `sfirat_haomer` package
(`src/sfirat_haomer/core.py`, `src/sfirat_haomer/data.py`, `src/sfirat_haomer/config.py`).

Conventions of the embedding:
* Python `int` is `Int`; Python `str` is `String` (ASCII case mapping via
  `Char.toUpper`/`Char.toLower` models `str.capitalize` on the ASCII month names).
* Python dicts are association lists `List (key × value)` in insertion order;
  `d.get(k, default)` is `(list.lookup k).getD default`; `k in d` is
  `(list.lookup k).isSome`.
* A Python function that either returns a value or signals failure — by raising
  `ValueError` or by returning an error-message string instead of an `OmerDay`
  (the `Union[OmerDay, str]` convention of `core.py`) — is modelled as
  `Except String α`, the error message carried verbatim.
* `datetime.date` values are `PyDate` records; none of the modelled operations
  inspect them, they are only carried.
-/

/-- A `{hebrew, transliteration, english}` attribute record of
`SEFIROT_ATTRIBUTES` in `data.py`. -/
structure SefirahAttr where
  hebrew : String
  transliteration : String
  english : String
  deriving DecidableEq

/-- The `SefiraInfo` dataclass of `core.py`: information about a Sefirah
combination for one Omer day. -/
structure SefiraInfo where
  week_sefirah : SefirahAttr
  day_sefirah : SefirahAttr
  combination : String
  combination_transliteration : String
  combination_english : String
  deriving DecidableEq

/-- One value of the `SPECIAL_DAYS` dict of `data.py`. -/
structure SpecialDayEntry where
  name : String
  hebrew : String
  description : String
  description_hebrew : String
  deriving DecidableEq

/-- A `datetime.date`: carried opaquely by the modelled code. -/
structure PyDate where
  year : Int
  month : Int
  day : Int
  deriving DecidableEq

/-- The `OmerDay` dataclass of `core.py` (its stored fields). -/
structure OmerDay where
  day : Int
  text : String
  transliteration : String
  english_translation : String
  hebrew_date : Option (Int × String)
  gregorian_date : Option PyDate
  sefirah_info : Option SefiraInfo
  is_special_day : Bool
  special_day_info : Option SpecialDayEntry
  deriving DecidableEq

/-- The `OutputFormat` enum of `config.py`. -/
inductive OutputFormat where
  | hebrew
  | transliterated
  | both
  | english
  deriving DecidableEq

/-- The `DateFormat` enum of `config.py`. -/
inductive DateFormat where
  | hebrew_only
  | gregorian_only
  | both
  | iso
  deriving DecidableEq

/-- The `OmerTradition` enum of `core.py`. -/
inductive OmerTradition where
  | sefardi
  | ashkenazi
  | chassidic
  deriving DecidableEq

/-- The `OmerConfig` dataclass of `config.py` (its stored fields). -/
structure OmerConfig where
  include_transliteration : Bool
  include_english_translation : Bool
  output_format : OutputFormat
  include_gregorian_dates : Bool
  date_format : DateFormat
  gregorian_format : String
  show_week_info : Bool
  show_day_count : Bool
  show_remaining_days : Bool
  compact_output : Bool
  strict_validation : Bool
  allow_future_dates : Bool
  locale : String
  deriving DecidableEq

deriving instance DecidableEq for Except

/-- The global default configuration returned by `get_config()` of `config.py`
(all dataclass field defaults). -/
def get_config : OmerConfig :=
  ⟨false, false, OutputFormat.hebrew, false, DateFormat.hebrew_only, "%Y-%m-%d",
   true, true, false, false, true, true, "he_IL"⟩

/-- The `OMER_TEXTS` dict of `data.py`, as an association list keyed by the Python int key (insertion order preserved). -/
def OMER_TEXTS : List (Int × String) := [
  (1, "הַיּוֹם יוֹם אֶחָד לָעֹמֶר"),
  (2, "הַיּוֹם שְׁנֵי יָמִים לָעֹמֶר"),
  (3, "הַיּוֹם שְׁלֹשָׁה יָמִים לָעֹמֶר"),
  (4, "הַיּוֹם אַרְבָּעָה יָמִים לָעֹמֶר"),
  (5, "הַיּוֹם חֲמִשָּׁה יָמִים לָעֹמֶר"),
  (6, "הַיּוֹם שִׁשָּׁה יָמִים לָעֹמֶר"),
  (7, "הַיּוֹם שִׁבְעָה יָמִים, שֶׁהֵם שָׁבוּעַ אֶחָד לָעֹמֶר"),
  (8, "הַיּוֹם שְׁמוֹנָה יָמִים, שֶׁהֵם שָׁבוּעַ אֶחָד וְיוֹם אֶחָד לָעֹמֶר"),
  (9, "הַיּוֹם תִּשְׁעָה יָמִים, שֶׁהֵם שָׁבוּעַ אֶחָד וּשְׁנֵי יָמִים לָעֹמֶר"),
  (10, "הַיּוֹם עֲשָׂרָה יָמִים, שֶׁהֵם שָׁבוּעַ אֶחָד וּשְׁלֹשָׁה יָמִים לָעֹמֶר"),
  (11, "הַיּוֹם אַחַד עָשָׂר יוֹם, שֶׁהֵם שָׁבוּעַ אֶחָד וְאַרְבָּעָה יָמִים לָעֹמֶר"),
  (12, "הַיּוֹם שְׁנֵים עָשָׂר יוֹם, שֶׁהֵם שָׁבוּעַ אֶחָד וַחֲמִשָּׁה יָמִים לָעֹמֶר"),
  (13, "הַיּוֹם שְׁלֹשָׁה עָשָׂר יוֹם, שֶׁהֵם שָׁבוּעַ אֶחָד וְשִׁשָּׁה יָמִים לָעֹמֶר"),
  (14, "הַיּוֹם אַרְבָּעָה עָשָׂר יוֹם, שֶׁהֵם שְׁנֵי שָׁבוּעוֹת לָעֹמֶר"),
  (15, "הַיּוֹם חֲמִשָּׁה עָשָׂר יוֹם, שֶׁהֵם שְׁנֵי שָׁבוּעוֹת וְיוֹם אֶחָד לָעֹמֶר"),
  (16, "הַיּוֹם שִׁשָּׁה עָשָׂר יוֹם, שֶׁהֵם שְׁנֵי שָׁבוּעוֹת וּשְׁנֵי יָמִים לָעֹמֶר"),
  (17, "הַיּוֹם שִׁבְעָה עָשָׂר יוֹם, שֶׁהֵם שְׁנֵי שָׁבוּעוֹת וּשְׁלֹשָׁה יָמִים לָעֹמֶר"),
  (18, "הַיּוֹם שְׁמוֹנָה עָשָׂר יוֹם, שֶׁהֵם שְׁנֵי שָׁבוּעוֹת וְאַרְבָּעָה יָמִים לָעֹמֶר"),
  (19, "הַיּוֹם תִּשְׁעָה עָשָׂר יוֹם, שֶׁהֵם שְׁנֵי שָׁבוּעוֹת וַחֲמִשָּׁה יָמִים לָעֹמֶר"),
  (20, "הַיּוֹם עֶשְׂרִים יוֹם, שֶׁהֵם שְׁנֵי שָׁבוּעוֹת וְשִׁשָּׁה יָמִים לָעֹמֶר"),
  (21, "הַיּוֹם עֶשְׂרִים וְאֶחָד יוֹם, שֶׁהֵם שְׁלֹשָׁה שָׁבוּעוֹת לָעֹמֶר"),
  (22, "הַיּוֹם עֶשְׂרִים וּשְׁנֵי יָמִים, שֶׁהֵם שְׁלֹשָׁה שָׁבוּעוֹת וְיוֹם אֶחָד לָעֹמֶר"),
  (23, "הַיּוֹם עֶשְׂרִים וּשְׁלֹשָׁה יָמִים, שֶׁהֵם שְׁלֹשָׁה שָׁבוּעוֹת וּשְׁנֵי יָמִים לָעֹמֶר"),
  (24, "הַיּוֹם עֶשְׂרִים וְאַרְבָּעָה יָמִים, שֶׁהֵם שְׁלֹשָׁה שָׁבוּעוֹת וּשְׁלֹשָׁה יָמִים לָעֹמֶר"),
  (25, "הַיּוֹם עֶשְׂרִים וַחֲמִשָּׁה יָמִים, שֶׁהֵם שְׁלֹשָׁה שָׁבוּעוֹת וְאַרְבָּעָה יָמִים לָעֹמֶר"),
  (26, "הַיּוֹם עֶשְׂרִים וְשִׁשָּׁה יָמִים, שֶׁהֵם שְׁלֹשָׁה שָׁבוּעוֹת וַחֲמִשָּׁה יָמִים לָעֹמֶר"),
  (27, "הַיּוֹם עֶשְׂרִים וְשִׁבְעָה יָמִים, שֶׁהֵם שְׁלֹשָׁה שָׁבוּעוֹת וְשִׁשָּׁה יָמִים לָעֹמֶר"),
  (28, "הַיּוֹם שְׁמוֹנָה וְעֶשְׂרִים יוֹם, שֶׁהֵם אַרְבָּעָה שָׁבוּעוֹת לָעֹמֶר"),
  (29, "הַיּוֹם תִּשְׁעָה וְעֶשְׂרִים יוֹם, שֶׁהֵם אַרְבָּעָה שָׁבוּעוֹת וְיוֹם אֶחָד לָעֹמֶר"),
  (30, "הַיּוֹם שְׁלֹשִׁים יוֹם, שֶׁהֵם אַרְבָּעָה שָׁבוּעוֹת וּשְׁנֵי יָמִים לָעֹמֶר"),
  (31, "הַיּוֹם אֶחָד וּשְׁלֹשִׁים יוֹם, שֶׁהֵם אַרְבָּעָה שָׁבוּעוֹת וּשְׁלֹשָׁה יָמִים לָעֹמֶר"),
  (32, "הַיּוֹם שְׁנַיִם וּשְׁלֹשִׁים יוֹם, שֶׁהֵם אַרְבָּעָה שָׁבוּעוֹת וְאַרְבָּעָה יָמִים לָעֹמֶר"),
  (33, "הַיּוֹם שְׁלֹשָׁה וּשְׁלֹשִׁים יוֹם, שֶׁהֵם אַרְבָּעָה שָׁבוּעוֹת וַחֲמִשָּׁה יָמִים לָעֹמֶר"),
  (34, "הַיּוֹם אַרְבָּעָה וּשְׁלֹשִׁים יוֹם, שֶׁהֵם אַרְבָּעָה שָׁבוּעוֹת וְשִׁשָּׁה יָמִים לָעֹמֶר"),
  (35, "הַיּוֹם חֲמִשָּׁה וּשְׁלֹשִׁים יוֹם, שֶׁהֵם חֲמִשָּׁה שָׁבוּעוֹת לָעֹמֶר"),
  (36, "הַיּוֹם שִׁשָּׁה וּשְׁלֹשִׁים יוֹם, שֶׁהֵם חֲמִשָּׁה שָׁבוּעוֹת וְיוֹם אֶחָד לָעֹמֶר"),
  (37, "הַיּוֹם שִׁבְעָה וּשְׁלֹשִׁים יוֹם, שֶׁהֵם חֲמִשָּׁה שָׁבוּעוֹת וּשְׁנֵי יָמִים לָעֹמֶר"),
  (38, "הַיּוֹם שְׁמוֹנָה וּשְׁלֹשִׁים יוֹם, שֶׁהֵם חֲמִשָּׁה שָׁבוּעוֹת וּשְׁלֹשָׁה יָמִים לָעֹמֶר"),
  (39, "הַיּוֹם תִּשְׁעָה וּשְׁלֹשִׁים יוֹם, שֶׁהֵם חֲמִשָּׁה שָׁבוּעוֹת וְאַרְבָּעָה יָמִים לָעֹמֶר"),
  (40, "הַיּוֹם אַרְבָּעִים יוֹם, שֶׁהֵם חֲמִשָּׁה שָׁבוּעוֹת וַחֲמִשָּׁה יָמִים לָעֹמֶר"),
  (41, "הַיּוֹם אֶחָד וְאַרְבָּעִים יוֹם, שֶׁהֵם חֲמִשָּׁה שָׁבוּעוֹת וְשִׁשָּׁה יָמִים לָעֹמֶר"),
  (42, "הַיּוֹם שְׁנַיִם וְאַרְבָּעִים יוֹם, שֶׁהֵם שִׁשָּׁה שָׁבוּעוֹת לָעֹמֶר"),
  (43, "הַיּוֹם שְׁלֹשָׁה וְאַרְבָּעִים יוֹם, שֶׁהֵם שִׁשָּׁה שָׁבוּעוֹת וְיוֹם אֶחָד לָעֹמֶר"),
  (44, "הַיּוֹם אַרְבָּעָה וְאַרְבָּעִים יוֹם, שֶׁהֵם שִׁשָּׁה שָׁבוּעוֹת וּשְׁנֵי יָמִים לָעֹמֶר"),
  (45, "הַיּוֹם חֲמִשָּׁה וְאַרְבָּעִים יוֹם, שֶׁהֵם שִׁשָּׁה שָׁבוּעוֹת וּשְׁלֹשָׁה יָמִים לָעֹמֶר"),
  (46, "הַיּוֹם שִׁשָּׁה וְאַרְבָּעִים יוֹם, שֶׁהֵם שִׁשָּׁה שָׁבוּעוֹת וְאַרְבָּעָה יָמִים לָעֹמֶר"),
  (47, "הַיּוֹם שִׁבְעָה וְאַרְבָּעִים יוֹם, שֶׁהֵם שִׁשָּׁה שָׁבוּעוֹת וַחֲמִשָּׁה יָמִים לָעֹמֶר"),
  (48, "הַיּוֹם שְׁמוֹנָה וְאַרְבָּעִים יוֹם, שֶׁהֵם שִׁשָּׁה שָׁבוּעוֹת וְשִׁשָּׁה יָמִים לָעֹמֶר"),
  (49, "הַיּוֹם תִּשְׁעָה וְאַרְבָּעִים יוֹם, שֶׁהֵם שִׁבְעָה שָׁבוּעוֹת לָעֹמֶר")
]

/-- The `OMER_TRANSLITERATIONS` dict of `data.py`, as an association list keyed by the Python int key (insertion order preserved). -/
def OMER_TRANSLITERATIONS : List (Int × String) := [
  (1, "Hayom yom echad la\x27omer"),
  (2, "Hayom shnei yamim la\x27omer"),
  (3, "Hayom shloshah yamim la\x27omer"),
  (4, "Hayom arba\x27ah yamim la\x27omer"),
  (5, "Hayom chamishah yamim la\x27omer"),
  (6, "Hayom shishah yamim la\x27omer"),
  (7, "Hayom shiv\x27ah yamim, shehem shavu\x27a echad la\x27omer"),
  (8, "Hayom shmonah yamim, shehem shavu\x27a echad v\x27yom echad la\x27omer"),
  (9, "Hayom tish\x27ah yamim, shehem shavu\x27a echad ushnei yamim la\x27omer"),
  (10, "Hayom asarah yamim, shehem shavu\x27a echad ushloshah yamim la\x27omer"),
  (11, "Hayom achad asar yom, shehem shavu\x27a echad v\x27arba\x27ah yamim la\x27omer"),
  (12, "Hayom shneim asar yom, shehem shavu\x27a echad vachamishah yamim la\x27omer"),
  (13, "Hayom shloshah asar yom, shehem shavu\x27a echad v\x27shishah yamim la\x27omer"),
  (14, "Hayom arba\x27ah asar yom, shehem shnei shavu\x27ot la\x27omer"),
  (15, "Hayom chamishah asar yom, shehem shnei shavu\x27ot v\x27yom echad la\x27omer"),
  (16, "Hayom shishah asar yom, shehem shnei shavu\x27ot ushnei yamim la\x27omer"),
  (17, "Hayom shiv\x27ah asar yom, shehem shnei shavu\x27ot ushloshah yamim la\x27omer"),
  (18, "Hayom shmonah asar yom, shehem shnei shavu\x27ot v\x27arba\x27ah yamim la\x27omer"),
  (19, "Hayom tish\x27ah asar yom, shehem shnei shavu\x27ot vachamishah yamim la\x27omer"),
  (20, "Hayom esrim yom, shehem shnei shavu\x27ot v\x27shishah yamim la\x27omer"),
  (21, "Hayom esrim v\x27echad yom, shehem shloshah shavu\x27ot la\x27omer"),
  (22, "Hayom esrim ushnei yamim, shehem shloshah shavu\x27ot v\x27yom echad la\x27omer"),
  (23, "Hayom esrim ushloshah yamim, shehem shloshah shavu\x27ot ushnei yamim la\x27omer"),
  (24, "Hayom esrim v\x27arba\x27ah yamim, shehem shloshah shavu\x27ot ushloshah yamim la\x27omer"),
  (25, "Hayom esrim vachamishah yamim, shehem shloshah shavu\x27ot v\x27arba\x27ah yamim la\x27omer"),
  (26, "Hayom esrim v\x27shishah yamim, shehem shloshah shavu\x27ot vachamishah yamim la\x27omer"),
  (27, "Hayom esrim v\x27shiv\x27ah yamim, shehem shloshah shavu\x27ot v\x27shishah yamim la\x27omer"),
  (28, "Hayom shmonah v\x27esrim yom, shehem arba\x27ah shavu\x27ot la\x27omer"),
  (29, "Hayom tish\x27ah v\x27esrim yom, shehem arba\x27ah shavu\x27ot v\x27yom echad la\x27omer"),
  (30, "Hayom shloshim yom, shehem arba\x27ah shavu\x27ot ushnei yamim la\x27omer"),
  (31, "Hayom echad ushloshim yom, shehem arba\x27ah shavu\x27ot ushloshah yamim la\x27omer"),
  (32, "Hayom shnayim ushloshim yom, shehem arba\x27ah shavu\x27ot v\x27arba\x27ah yamim la\x27omer"),
  (33, "Hayom shloshah ushloshim yom, shehem arba\x27ah shavu\x27ot vachamishah yamim la\x27omer"),
  (34, "Hayom arba\x27ah ushloshim yom, shehem arba\x27ah shavu\x27ot v\x27shishah yamim la\x27omer"),
  (35, "Hayom chamishah ushloshim yom, shehem chamishah shavu\x27ot la\x27omer"),
  (36, "Hayom shishah ushloshim yom, shehem chamishah shavu\x27ot v\x27yom echad la\x27omer"),
  (37, "Hayom shiv\x27ah ushloshim yom, shehem chamishah shavu\x27ot ushnei yamim la\x27omer"),
  (38, "Hayom shmonah ushloshim yom, shehem chamishah shavu\x27ot ushloshah yamim la\x27omer"),
  (39, "Hayom tish\x27ah ushloshim yom, shehem chamishah shavu\x27ot v\x27arba\x27ah yamim la\x27omer"),
  (40, "Hayom arba\x27im yom, shehem chamishah shavu\x27ot vachamishah yamim la\x27omer"),
  (41, "Hayom echad v\x27arba\x27im yom, shehem chamishah shavu\x27ot v\x27shishah yamim la\x27omer"),
  (42, "Hayom shnayim v\x27arba\x27im yom, shehem shishah shavu\x27ot la\x27omer"),
  (43, "Hayom shloshah v\x27arba\x27im yom, shehem shishah shavu\x27ot v\x27yom echad la\x27omer"),
  (44, "Hayom arba\x27ah v\x27arba\x27im yom, shehem shishah shavu\x27ot ushnei yamim la\x27omer"),
  (45, "Hayom chamishah v\x27arba\x27im yom, shehem shishah shavu\x27ot ushloshah yamim la\x27omer"),
  (46, "Hayom shishah v\x27arba\x27im yom, shehem shishah shavu\x27ot v\x27arba\x27ah yamim la\x27omer"),
  (47, "Hayom shiv\x27ah v\x27arba\x27im yom, shehem shishah shavu\x27ot vachamishah yamim la\x27omer"),
  (48, "Hayom shmonah v\x27arba\x27im yom, shehem shishah shavu\x27ot v\x27shishah yamim la\x27omer"),
  (49, "Hayom tish\x27ah v\x27arba\x27im yom, shehem shiv\x27ah shavu\x27ot la\x27omer")
]

/-- The `OMER_ENGLISH_TRANSLATIONS` dict of `data.py`, as an association list keyed by the Python int key (insertion order preserved). -/
def OMER_ENGLISH_TRANSLATIONS : List (Int × String) := [
  (1, "Today is one day of the Omer"),
  (2, "Today is two days of the Omer"),
  (3, "Today is three days of the Omer"),
  (4, "Today is four days of the Omer"),
  (5, "Today is five days of the Omer"),
  (6, "Today is six days of the Omer"),
  (7, "Today is seven days, which is one week of the Omer"),
  (8, "Today is eight days, which is one week and one day of the Omer"),
  (9, "Today is nine days, which is one week and two days of the Omer"),
  (10, "Today is ten days, which is one week and three days of the Omer"),
  (11, "Today is eleven days, which is one week and four days of the Omer"),
  (12, "Today is twelve days, which is one week and five days of the Omer"),
  (13, "Today is thirteen days, which is one week and six days of the Omer"),
  (14, "Today is fourteen days, which is two weeks of the Omer"),
  (15, "Today is fifteen days, which is two weeks and one day of the Omer"),
  (16, "Today is sixteen days, which is two weeks and two days of the Omer"),
  (17, "Today is seventeen days, which is two weeks and three days of the Omer"),
  (18, "Today is eighteen days, which is two weeks and four days of the Omer"),
  (19, "Today is nineteen days, which is two weeks and five days of the Omer"),
  (20, "Today is twenty days, which is two weeks and six days of the Omer"),
  (21, "Today is twenty-one days, which is three weeks of the Omer"),
  (22, "Today is twenty-two days, which is three weeks and one day of the Omer"),
  (23, "Today is twenty-three days, which is three weeks and two days of the Omer"),
  (24, "Today is twenty-four days, which is three weeks and three days of the Omer"),
  (25, "Today is twenty-five days, which is three weeks and four days of the Omer"),
  (26, "Today is twenty-six days, which is three weeks and five days of the Omer"),
  (27, "Today is twenty-seven days, which is three weeks and six days of the Omer"),
  (28, "Today is twenty-eight days, which is four weeks of the Omer"),
  (29, "Today is twenty-nine days, which is four weeks and one day of the Omer"),
  (30, "Today is thirty days, which is four weeks and two days of the Omer"),
  (31, "Today is thirty-one days, which is four weeks and three days of the Omer"),
  (32, "Today is thirty-two days, which is four weeks and four days of the Omer"),
  (33, "Today is thirty-three days, which is four weeks and five days of the Omer"),
  (34, "Today is thirty-four days, which is four weeks and six days of the Omer"),
  (35, "Today is thirty-five days, which is five weeks of the Omer"),
  (36, "Today is thirty-six days, which is five weeks and one day of the Omer"),
  (37, "Today is thirty-seven days, which is five weeks and two days of the Omer"),
  (38, "Today is thirty-eight days, which is five weeks and three days of the Omer"),
  (39, "Today is thirty-nine days, which is five weeks and four days of the Omer"),
  (40, "Today is forty days, which is five weeks and five days of the Omer"),
  (41, "Today is forty-one days, which is five weeks and six days of the Omer"),
  (42, "Today is forty-two days, which is six weeks of the Omer"),
  (43, "Today is forty-three days, which is six weeks and one day of the Omer"),
  (44, "Today is forty-four days, which is six weeks and two days of the Omer"),
  (45, "Today is forty-five days, which is six weeks and three days of the Omer"),
  (46, "Today is forty-six days, which is six weeks and four days of the Omer"),
  (47, "Today is forty-seven days, which is six weeks and five days of the Omer"),
  (48, "Today is forty-eight days, which is six weeks and six days of the Omer"),
  (49, "Today is forty-nine days, which is seven weeks of the Omer")
]

/-- The `SEFIROT_ATTRIBUTES` dict of `data.py`: week/day attribute records keyed 1..7. -/
def SEFIROT_ATTRIBUTES : List (Int × SefirahAttr) := [
  (1, ⟨"חֶסֶד", "Chesed", "Loving-kindness"⟩),
  (2, ⟨"גְּבוּרָה", "Gevurah", "Strength/Discipline"⟩),
  (3, ⟨"תִּפְאֶרֶת", "Tiferet", "Beauty/Harmony"⟩),
  (4, ⟨"נֶצַח", "Netzach", "Victory/Endurance"⟩),
  (5, ⟨"הוֹד", "Hod", "Splendor/Humility"⟩),
  (6, ⟨"יְסוֹד", "Yesod", "Foundation/Connection"⟩),
  (7, ⟨"מַלְכוּת", "Malchut", "Kingship/Sovereignty"⟩)
]

/-- The `SPECIAL_DAYS` dict of `data.py`. Python dicts preserve insertion order: the 33 entry precedes the 18 entry. -/
def SPECIAL_DAYS : List (Int × SpecialDayEntry) := [
  (33, ⟨"Lag BaOmer", "ל\"ג בעומר", "33rd day of the Omer, a day of celebration", "יום השלושים ושלושה לעומר, יום שמחה"⟩),
  (18, ⟨"Pesach Sheni", "פסח שני", "Second Passover", "פסח שני"⟩)
]
/-- Python `str.capitalize()` restricted to ASCII case mapping: the first
character uppercased, the rest lowercased. -/
def pyCapitalize (s : String) : String :=
  match s.data with
  | [] => ""
  | c :: cs => String.mk (c.toUpper :: cs.map Char.toLower)

/-- `ERROR_MESSAGES["out_of_range"]["english"]` of `data.py`. -/
def ERROR_out_of_range_english : String := "Day must be between 1 and 49"

/-- `ERROR_MESSAGES["date_error"]["english"]` of `data.py`. -/
def ERROR_date_error_english : String := "Date error"

/-- The `OMER_RANGES` class dict of `OmerCalculator` in `core.py`: each month
name maps to the `(start, stop)` bounds of the Python `range` object
(`range(16, 31)`, `range(1, 30)`, `range(1, 6)`). -/
def OMER_RANGES : List (String × (Int × Int)) :=
  [("Nisan", (16, 31)), ("Iyyar", (1, 30)), ("Sivan", (1, 6))]

/-- `OmerCalculator.is_omer_period` of `core.py`: capitalize the month, then
test dict membership and `day in range(start, stop)`. -/
def is_omer_period (day : Int) (month : String) : Bool :=
  let m := pyCapitalize month
  match OMER_RANGES.lookup m with
  | some (start, stop) => decide (start ≤ day ∧ day < stop)
  | none => false

/-- `OmerCalculator.calculate_omer_day` of `core.py`: the piecewise ordinal
formula, raising `ValueError` for a month other than Nisan/Iyyar/Sivan. -/
def calculate_omer_day (day : Int) (month : String) : Except String Int :=
  let m := pyCapitalize month
  if m = "Nisan" then Except.ok (day - 15)
  else if m = "Iyyar" then Except.ok (15 + day)
  else if m = "Sivan" then Except.ok (44 + day)
  else Except.error ("Invalid Hebrew month for Omer calculation: " ++ m)

/-- `OmerCalculator.get_hebrew_date_from_omer_day` of `core.py`: range-check
the ordinal then apply the piecewise inverse map. -/
def get_hebrew_date_from_omer_day (omer_day : Int) : Except String (Int × String) :=
  if ¬ (1 ≤ omer_day ∧ omer_day ≤ 49) then Except.error ERROR_out_of_range_english
  else if omer_day ≤ 15 then Except.ok (omer_day + 15, "Nisan")
  else if omer_day ≤ 44 then Except.ok (omer_day - 15, "Iyyar")
  else Except.ok (omer_day - 44, "Sivan")

/-- The `DAILY_SEFIROT` dict of `data.py`: built by the double loop
`for week in range(1, 8): for day in range(1, 8)` with
`omer_day = (week - 1) * 7 + day`, guarded by `omer_day <= 49`, combining the
week and day attributes from `SEFIROT_ATTRIBUTES`. -/
def DAILY_SEFIROT : List (Int × SefiraInfo) :=
  (List.range' 1 7).flatMap fun week =>
    (List.range' 1 7).filterMap fun day =>
      let omer_day : Int := ((week : Int) - 1) * 7 + (day : Int)
      if omer_day ≤ 49 then
        match SEFIROT_ATTRIBUTES.lookup (week : Int), SEFIROT_ATTRIBUTES.lookup (day : Int) with
        | some week_attr, some day_attr =>
          some (omer_day,
            ⟨week_attr, day_attr,
             day_attr.hebrew ++ " שֶׁבְּ" ++ week_attr.hebrew,
             day_attr.transliteration ++ " sheb\x27" ++ week_attr.transliteration,
             day_attr.english ++ " within " ++ week_attr.english⟩)
        | _, _ => none
      else none

/-- `validate_data_integrity()` of `data.py`: walk days 1..49 and weeks 1..7,
collecting a message for every missing table entry. -/
def validate_data_integrity : List String :=
  let dayErrors := (List.range' 1 49).flatMap fun day =>
    (if (OMER_TEXTS.lookup (day : Int)).isNone then
      ["Missing Hebrew text for day " ++ toString day] else []) ++
    (if (OMER_TRANSLITERATIONS.lookup (day : Int)).isNone then
      ["Missing transliteration for day " ++ toString day] else []) ++
    (if (OMER_ENGLISH_TRANSLATIONS.lookup (day : Int)).isNone then
      ["Missing English translation for day " ++ toString day] else []) ++
    (if (DAILY_SEFIROT.lookup (day : Int)).isNone then
      ["Missing sefirah information for day " ++ toString day] else [])
  let weekErrors := (List.range' 1 7).flatMap fun week =>
    if (SEFIROT_ATTRIBUTES.lookup (week : Int)).isNone then
      ["Missing sefirah attributes for week " ++ toString week] else []
  dayErrors ++ weekErrors

/-- Construction of an `OmerDay` dataclass value in `core.py`, including its
`__post_init__`: range-check the day (raising `ValueError` otherwise), fill
empty text fields from the tables, fill a `None` `sefirah_info` from
`DAILY_SEFIROT`, and mark special days from `SPECIAL_DAYS`. -/
def mkOmerDay (day : Int) (text transliteration english_translation : String)
    (hebrew_date : Option (Int × String)) (gregorian_date : Option PyDate)
    (sefirah_info : Option SefiraInfo) (is_special_day : Bool)
    (special_day_info : Option SpecialDayEntry) : Except String OmerDay :=
  if ¬ (1 ≤ day ∧ day ≤ 49) then Except.error ERROR_out_of_range_english
  else
    let text := if text = "" then
      (OMER_TEXTS.lookup day).getD ("Missing text for day " ++ toString day) else text
    let transliteration := if transliteration = "" then
      (OMER_TRANSLITERATIONS.lookup day).getD "" else transliteration
    let english_translation := if english_translation = "" then
      (OMER_ENGLISH_TRANSLATIONS.lookup day).getD "" else english_translation
    let sefirah_info := if sefirah_info.isNone && (DAILY_SEFIROT.lookup day).isSome then
      DAILY_SEFIROT.lookup day else sefirah_info
    match SPECIAL_DAYS.lookup day with
    | some entry =>
      Except.ok ⟨day, text, transliteration, english_translation, hebrew_date,
        gregorian_date, sefirah_info, true, some entry⟩
    | none =>
      Except.ok ⟨day, text, transliteration, english_translation, hebrew_date,
        gregorian_date, sefirah_info, is_special_day, special_day_info⟩

/-- The `week` property of `OmerDay` in `core.py`: `(day - 1) // 7 + 1`
(Python floor division). -/
def OmerDay.week (d : OmerDay) : Int := (d.day - 1).fdiv 7 + 1

/-- The `day_of_week` property of `OmerDay` in `core.py`: `(day - 1) % 7 + 1`
(Python modulo). -/
def OmerDay.day_of_week (d : OmerDay) : Int := (d.day - 1).fmod 7 + 1

/-- `_create_omer_day` of `core.py`: reject dates outside the Omer period,
compute the ordinal, gather texts, and build the `OmerDay`; error-message
returns and caught `ValueError`s both surface as `Except.error`. -/
def _create_omer_day (day : Int) (month : String) (config : OmerConfig)
    (tradition : OmerTradition) (hebrew_date : Option (Int × String))
    (gregorian_date : Option PyDate) : Except String OmerDay :=
  if !(is_omer_period day month) then
    Except.error "This date is not within the Sefirat HaOmer period."
  else
    match calculate_omer_day day month with
    | Except.error e => Except.error e
    | Except.ok omer_day =>
      mkOmerDay omer_day
        ((OMER_TEXTS.lookup omer_day).getD ("Missing Omer text for day " ++ toString omer_day ++ "."))
        ((OMER_TRANSLITERATIONS.lookup omer_day).getD "")
        ((OMER_ENGLISH_TRANSLATIONS.lookup omer_day).getD "")
        (some (hebrew_date.getD (day, month))) gregorian_date none false none

/-- `get_omer_day_by_number` of `core.py`: range-check the ordinal, map it to
its Hebrew date, and build the enriched `OmerDay`; a `None` config is replaced
by the global `get_config()`. -/
def get_omer_day_by_number (day_number : Int) (config : Option OmerConfig)
    (tradition : OmerTradition) : Except String OmerDay :=
  if ¬ (1 ≤ day_number ∧ day_number ≤ 49) then Except.error ERROR_out_of_range_english
  else
    match get_hebrew_date_from_omer_day day_number with
    | Except.ok hd => _create_omer_day hd.1 hd.2 (config.getD get_config) tradition none none
    | Except.error e => Except.error (ERROR_date_error_english ++ ": " ++ e)

/-- `get_all_omer_days` of `core.py`: build the 49 `OmerDay` records from the
Nisan 16–30, Iyyar 1–29 and Sivan 1–5 date ranges, in that order. The
`hebrew_year`, `config` and `tradition` arguments are accepted as in the
source and, as in the source, do not influence the constructed records. -/
def get_all_omer_days (hebrew_year : Option Int) (config : Option OmerConfig)
    (tradition : OmerTradition) : Except String (List OmerDay) := do
  let mkDay := fun (day : Int) (month : String) => do
    let omer_day ← calculate_omer_day day month
    mkOmerDay omer_day
      ((OMER_TEXTS.lookup omer_day).getD ("Missing text for day " ++ toString omer_day))
      ((OMER_TRANSLITERATIONS.lookup omer_day).getD "")
      ((OMER_ENGLISH_TRANSLATIONS.lookup omer_day).getD "")
      (some (day, month)) none none false none
  let nisan ← (List.range' 16 15).mapM (fun d => mkDay (d : Int) "Nisan")
  let iyyar ← (List.range' 1 29).mapM (fun d => mkDay (d : Int) "Iyyar")
  let sivan ← (List.range' 1 5).mapM (fun d => mkDay (d : Int) "Sivan")
  pure (nisan ++ iyyar ++ sivan)

/-- `get_omer_days_by_week` of `core.py`: raise `ValueError` outside weeks
1..7, otherwise filter `get_all_omer_days` to ordinals
`(week-1)*7+1 .. min(week*7, 49)`. -/
def get_omer_days_by_week (week : Int) (hebrew_year : Option Int)
    (config : Option OmerConfig) (tradition : OmerTradition) :
    Except String (List OmerDay) :=
  if ¬ (1 ≤ week ∧ week ≤ 7) then
    Except.error ("Week must be between 1 and 7, got " ++ toString week)
  else do
    let all_days ← get_all_omer_days hebrew_year config tradition
    let start_day := (week - 1) * 7 + 1
    let end_day := min (week * 7) 49
    pure (all_days.filter fun d => decide (start_day ≤ d.day ∧ d.day ≤ end_day))

/-- `find_special_omer_days` of `core.py`: iterate `SPECIAL_DAYS.keys()` in
dict insertion order, keeping every ordinal whose `get_omer_day_by_number`
call yields an `OmerDay`. -/
def find_special_omer_days : List OmerDay :=
  (SPECIAL_DAYS.map Prod.fst).filterMap fun day_num =>
    match get_omer_day_by_number day_num (some get_config) OmerTradition.ashkenazi with
    | Except.ok d => some d
    | Except.error _ => none

/-! ## Basic computation lemmas -/

lemma calc_nisan (day : Int) : calculate_omer_day day "Nisan" = Except.ok (day - 15) := rfl

lemma calc_iyyar (day : Int) : calculate_omer_day day "Iyyar" = Except.ok (15 + day) := rfl

lemma calc_sivan (day : Int) : calculate_omer_day day "Sivan" = Except.ok (44 + day) := rfl

lemma lookup_omer_ranges (m : String) :
    OMER_RANGES.lookup m =
      if m = "Nisan" then some (16, 31)
      else if m = "Iyyar" then some (1, 30)
      else if m = "Sivan" then some (1, 6)
      else none := by
  by_cases h1 : m = "Nisan"
  · subst h1; decide
  · by_cases h2 : m = "Iyyar"
    · subst h2; decide
    · by_cases h3 : m = "Sivan"
      · subst h3; decide
      · rw [if_neg h1, if_neg h2, if_neg h3]
        simp [OMER_RANGES, List.lookup, beq_eq_false_iff_ne.mpr h1,
          beq_eq_false_iff_ne.mpr h2, beq_eq_false_iff_ne.mpr h3]

lemma calculate_omer_day_eq (day : Int) (month : String) :
    calculate_omer_day day month =
      if pyCapitalize month = "Nisan" then Except.ok (day - 15)
      else if pyCapitalize month = "Iyyar" then Except.ok (15 + day)
      else if pyCapitalize month = "Sivan" then Except.ok (44 + day)
      else Except.error ("Invalid Hebrew month for Omer calculation: " ++ pyCapitalize month) :=
  rfl

lemma is_omer_period_eq (day : Int) (month : String) :
    is_omer_period day month =
      match OMER_RANGES.lookup (pyCapitalize month) with
      | some (start, stop) => decide (start ≤ day ∧ day < stop)
      | none => false :=
  rfl

/-! ## Claim theorems -/

/-- Claim C1: for every ordinal n in [1, 49], mapping the ordinal to a Hebrew
date with `get_hebrew_date_from_omer_day` and back with `calculate_omer_day`
returns n. -/
theorem omer_roundtrip (n : Int) (h1 : 1 ≤ n) (h2 : n ≤ 49) :
    ∃ d m, get_hebrew_date_from_omer_day n = Except.ok (d, m) ∧
      calculate_omer_day d m = Except.ok n := by
  unfold get_hebrew_date_from_omer_day
  rw [if_neg (show ¬¬(1 ≤ n ∧ n ≤ 49) by omega)]
  by_cases hB : n ≤ 15
  · rw [if_pos hB]
    refine ⟨n + 15, "Nisan", rfl, ?_⟩
    rw [calc_nisan]
    have h : n + 15 - 15 = n := by ring
    rw [h]
  · rw [if_neg hB]
    by_cases hC : n ≤ 44
    · rw [if_pos hC]
      refine ⟨n - 15, "Iyyar", rfl, ?_⟩
      rw [calc_iyyar]
      have h : 15 + (n - 15) = n := by ring
      rw [h]
    · rw [if_neg hC]
      refine ⟨n - 44, "Sivan", rfl, ?_⟩
      rw [calc_sivan]
      have h : 44 + (n - 44) = n := by ring
      rw [h]

/-- Witness for C1: the round trip at ordinal 30. -/
theorem omer_roundtrip_witness :
    (1 : Int) ≤ 30 ∧ (30 : Int) ≤ 49 ∧
      (∃ d m, get_hebrew_date_from_omer_day 30 = Except.ok (d, m) ∧
        calculate_omer_day d m = Except.ok 30) :=
  ⟨by decide, by decide, omer_roundtrip 30 (by decide) (by decide)⟩

/-- Claim C2 counterexample: `(15, "Nisan")` is outside the Omer period, yet
`calculate_omer_day` returns the number 0 instead of raising an error. -/
theorem calc_no_period_check :
    is_omer_period 15 "Nisan" = false ∧ calculate_omer_day 15 "Nisan" = Except.ok 0 := by
  decide

/-- Claim C2 amended: `calculate_omer_day` errors (a plain `ValueError`, there
is no typed error class in the package) exactly when the capitalized month is
none of Nisan/Iyyar/Sivan; in particular `(1, "Tishrei")` errors rather than
silently defaulting, while a recognized month outside the Omer sub-range,
such as `(15, "Nisan")`, gets the formula applied and a number returned. -/
theorem calc_error_iff :
    (∀ (day : Int) (month : String),
      (∃ e, calculate_omer_day day month = Except.error e) ↔
        (pyCapitalize month ≠ "Nisan" ∧ pyCapitalize month ≠ "Iyyar" ∧
         pyCapitalize month ≠ "Sivan")) ∧
    (∃ e, calculate_omer_day 1 "Tishrei" = Except.error e) ∧
    calculate_omer_day 15 "Nisan" = Except.ok 0 := by
  refine ⟨fun day month => ?_, ⟨_, rfl⟩, rfl⟩
  rw [calculate_omer_day_eq]
  split_ifs with h1 h2 h3 <;> simp_all

/-- Witness for C2 (amended): the error characterization applied at
`(3, "Adar")`. -/
theorem calc_error_iff_witness :
    pyCapitalize "Adar" ≠ "Nisan" ∧ pyCapitalize "Adar" ≠ "Iyyar" ∧
      pyCapitalize "Adar" ≠ "Sivan" ∧
      (∃ e, calculate_omer_day 3 "Adar" = Except.error e) :=
  ⟨by decide, by decide, by decide,
   (calc_error_iff.1 3 "Adar").mpr ⟨by decide, by decide, by decide⟩⟩

/-- Claim C3: the ordinal formula is day−15 for Nisan, day+15 for Iyyar,
day+44 for Sivan, and meets the six stated boundary values. -/
theorem calc_formula :
    (∀ day : Int, calculate_omer_day day "Nisan" = Except.ok (day - 15)) ∧
    (∀ day : Int, calculate_omer_day day "Iyyar" = Except.ok (day + 15)) ∧
    (∀ day : Int, calculate_omer_day day "Sivan" = Except.ok (day + 44)) ∧
    calculate_omer_day 16 "Nisan" = Except.ok 1 ∧
    calculate_omer_day 30 "Nisan" = Except.ok 15 ∧
    calculate_omer_day 1 "Iyyar" = Except.ok 16 ∧
    calculate_omer_day 29 "Iyyar" = Except.ok 44 ∧
    calculate_omer_day 1 "Sivan" = Except.ok 45 ∧
    calculate_omer_day 5 "Sivan" = Except.ok 49 := by
  refine ⟨fun day => calc_nisan day, fun day => ?_, fun day => ?_,
    by decide, by decide, by decide, by decide, by decide, by decide⟩
  · rw [calc_iyyar, Int.add_comm]
  · rw [calc_sivan, Int.add_comm]

/-- Claim C4: `get_hebrew_date_from_omer_day` is the piecewise inverse map on
[1, 49] and errors with the out-of-range message outside [1, 49]. -/
theorem hebrew_date_piecewise :
    (∀ n : Int, 1 ≤ n → n ≤ 15 →
      get_hebrew_date_from_omer_day n = Except.ok (n + 15, "Nisan")) ∧
    (∀ n : Int, 16 ≤ n → n ≤ 44 →
      get_hebrew_date_from_omer_day n = Except.ok (n - 15, "Iyyar")) ∧
    (∀ n : Int, 45 ≤ n → n ≤ 49 →
      get_hebrew_date_from_omer_day n = Except.ok (n - 44, "Sivan")) ∧
    (∀ n : Int, n < 1 ∨ 49 < n →
      get_hebrew_date_from_omer_day n = Except.error ERROR_out_of_range_english) := by
  refine ⟨fun n ha hb => ?_, fun n ha hb => ?_, fun n ha hb => ?_, fun n h => ?_⟩ <;>
    unfold get_hebrew_date_from_omer_day <;>
    split_ifs <;> first | rfl | omega

/-- Witness for C4: the piecewise map evaluated in each region. -/
theorem hebrew_date_piecewise_witness :
    ((1 : Int) ≤ 3 ∧ (3 : Int) ≤ 15 ∧
      get_hebrew_date_from_omer_day 3 = Except.ok (3 + 15, "Nisan")) ∧
    ((16 : Int) ≤ 20 ∧ (20 : Int) ≤ 44 ∧
      get_hebrew_date_from_omer_day 20 = Except.ok (20 - 15, "Iyyar")) ∧
    ((45 : Int) ≤ 46 ∧ (46 : Int) ≤ 49 ∧
      get_hebrew_date_from_omer_day 46 = Except.ok (46 - 44, "Sivan")) ∧
    (((50 : Int) < 1 ∨ (49 : Int) < 50) ∧
      get_hebrew_date_from_omer_day 50 = Except.error ERROR_out_of_range_english) :=
  ⟨⟨by decide, by decide, hebrew_date_piecewise.1 3 (by decide) (by decide)⟩,
   ⟨by decide, by decide, hebrew_date_piecewise.2.1 20 (by decide) (by decide)⟩,
   ⟨by decide, by decide, hebrew_date_piecewise.2.2.1 46 (by decide) (by decide)⟩,
   ⟨by decide, hebrew_date_piecewise.2.2.2 50 (by decide)⟩⟩

/-- Claim C5: `is_omer_period day month` is true iff the capitalized month is
one of Nisan/Iyyar/Sivan with the day in that month's Omer sub-range
(Nisan 16–30, Iyyar 1–29, Sivan 1–5); in particular 15 Nisan, 6 Sivan and
30 Iyyar are all rejected. -/
theorem is_omer_period_iff :
    (∀ (day : Int) (month : String),
      is_omer_period day month = true ↔
        ((pyCapitalize month = "Nisan" ∧ 16 ≤ day ∧ day ≤ 30) ∨
         (pyCapitalize month = "Iyyar" ∧ 1 ≤ day ∧ day ≤ 29) ∨
         (pyCapitalize month = "Sivan" ∧ 1 ≤ day ∧ day ≤ 5))) ∧
    is_omer_period 15 "Nisan" = false ∧
    is_omer_period 6 "Sivan" = false ∧
    is_omer_period 30 "Iyyar" = false := by
  refine ⟨fun day month => ?_, by decide, by decide, by decide⟩
  rw [is_omer_period_eq, lookup_omer_ranges]
  split_ifs with h1 h2 h3 <;> simp_all <;> omega

/-- Witness for C5: membership applied at `(20, "NISAN")`, exercising the
case-insensitive normalization. -/
theorem is_omer_period_iff_witness :
    pyCapitalize "NISAN" = "Nisan" ∧ (16 : Int) ≤ 20 ∧ (20 : Int) ≤ 30 ∧
      is_omer_period 20 "NISAN" = true :=
  ⟨by decide, by decide, by decide,
   (is_omer_period_iff.1 20 "NISAN").mpr (Or.inl ⟨by decide, by decide, by decide⟩)⟩

/-- Claim C6: for every week w in [1, 7] and every `hebrew_year` (and config
and tradition) argument, `get_omer_days_by_week` returns exactly the 7 records
with ordinals `(w-1)*7+1 .. w*7` in ascending order; the seven weeks jointly
cover 1..49 with no gaps or overlaps; outside [1, 7] the call errors. -/
theorem by_week_partition :
    (∀ (w : Int) (y : Option Int) (c : Option OmerConfig) (t : OmerTradition),
      1 ≤ w → w ≤ 7 →
      ∃ l, get_omer_days_by_week w y c t = Except.ok l ∧
        l.map OmerDay.day =
          [(w-1)*7+1, (w-1)*7+2, (w-1)*7+3, (w-1)*7+4, (w-1)*7+5, (w-1)*7+6, (w-1)*7+7] ∧
        l.length = 7) ∧
    ((List.range' 1 7).flatMap fun w =>
      match get_omer_days_by_week (w : Int) none none OmerTradition.ashkenazi with
      | Except.ok l => l.map OmerDay.day
      | Except.error _ => []) = (List.range' 1 49).map (fun k => (k : Int)) ∧
    (∀ (w : Int) (y : Option Int) (c : Option OmerConfig) (t : OmerTradition),
      w < 1 ∨ 7 < w → ∃ e, get_omer_days_by_week w y c t = Except.error e) := by
  refine ⟨fun w y c t h1 h2 => ?_, by decide, fun w y c t hw => ?_⟩
  · interval_cases w <;> exact ⟨_, rfl, by decide, by decide⟩
  · unfold get_omer_days_by_week
    split_ifs with h
    · exfalso; omega
    · exact ⟨_, rfl⟩

/-- Witness for C6: week 2 yields ordinals 8..14, and week 0 errors. -/
theorem by_week_partition_witness :
    ((1 : Int) ≤ 2 ∧ (2 : Int) ≤ 7 ∧
      (∃ l, get_omer_days_by_week 2 none none OmerTradition.ashkenazi = Except.ok l ∧
        l.map OmerDay.day =
          [(2-1)*7+1, (2-1)*7+2, (2-1)*7+3, (2-1)*7+4, (2-1)*7+5, (2-1)*7+6, (2-1)*7+7] ∧
        l.length = 7)) ∧
    (((0 : Int) < 1 ∨ (7 : Int) < 0) ∧
      ∃ e, get_omer_days_by_week 0 none none OmerTradition.ashkenazi = Except.error e) :=
  ⟨⟨by decide, by decide,
    by_week_partition.1 2 none none OmerTradition.ashkenazi (by decide) (by decide)⟩,
   ⟨by decide,
    by_week_partition.2.2 0 none none OmerTradition.ashkenazi (by decide)⟩⟩

/-- Claim C7 counterexample: `find_special_omer_days` does not return the
special days in ascending ordinal order — its ordinal sequence is not
`[18, 33]`. -/
theorem find_special_not_ascending :
    find_special_omer_days.map OmerDay.day ≠ [18, 33] := by decide

/-- Claim C7 amended: `find_special_omer_days` returns exactly the records for
the ordinals of the shipped special-day table — each flagged special and
carrying a non-empty name and description — but in the table's insertion
order `[33, 18]`, not ascending ordinal order. -/
theorem find_special_days_spec :
    find_special_omer_days.map OmerDay.day = [33, 18] ∧
    find_special_omer_days.map OmerDay.day = SPECIAL_DAYS.map Prod.fst ∧
    find_special_omer_days.all (fun d =>
      d.is_special_day &&
        match d.special_day_info with
        | some e => decide (e.name ≠ "" ∧ e.description ≠ "")
        | none => false) = true := by
  decide

/-- `_create_omer_day` never reads its tradition argument. -/
lemma create_tradition_irrel (day : Int) (month : String) (config : OmerConfig)
    (t1 t2 : OmerTradition) (hd : Option (Int × String)) (g : Option PyDate) :
    _create_omer_day day month config t1 hd g = _create_omer_day day month config t2 hd g :=
  rfl

/-- `get_omer_day_by_number` forwards the tradition argument to
`_create_omer_day`, which ignores it. -/
lemma gobn_tradition_irrel (n : Int) (c : Option OmerConfig) (t1 t2 : OmerTradition) :
    get_omer_day_by_number n c t1 = get_omer_day_by_number n c t2 :=
  rfl

/-- `get_omer_day_by_number` succeeds on every ordinal in [1, 49]. -/
lemma gobn_ok (n : Int) (c : Option OmerConfig) (t : OmerTradition)
    (h1 : 1 ≤ n) (h2 : n ≤ 49) :
    ∃ d, get_omer_day_by_number n c t = Except.ok d := by
  interval_cases n <;> exact ⟨_, rfl⟩

/-- Claim C8: the tradition argument never affects the calendar fields — for
every ordinal in [1, 49], any config, and any two traditions, the two
`get_omer_day_by_number` results agree on day, week, day-of-week, Hebrew date
and Gregorian date. -/
theorem tradition_noninterference (n : Int) (c : Option OmerConfig)
    (t1 t2 : OmerTradition) (h1 : 1 ≤ n) (h2 : n ≤ 49) :
    ∃ d1 d2, get_omer_day_by_number n c t1 = Except.ok d1 ∧
      get_omer_day_by_number n c t2 = Except.ok d2 ∧
      d1.day = d2.day ∧ d1.week = d2.week ∧ d1.day_of_week = d2.day_of_week ∧
      d1.hebrew_date = d2.hebrew_date ∧ d1.gregorian_date = d2.gregorian_date := by
  obtain ⟨d, hd⟩ := gobn_ok n c t1 h1 h2
  refine ⟨d, d, hd, ?_, rfl, rfl, rfl, rfl, rfl⟩
  rw [← gobn_tradition_irrel n c t1 t2]
  exact hd

/-- Witness for C8: noninterference at ordinal 10, Sefardi vs Chassidic. -/
theorem tradition_noninterference_witness :
    (1 : Int) ≤ 10 ∧ (10 : Int) ≤ 49 ∧
      (∃ d1 d2, get_omer_day_by_number 10 none OmerTradition.sefardi = Except.ok d1 ∧
        get_omer_day_by_number 10 none OmerTradition.chassidic = Except.ok d2 ∧
        d1.day = d2.day ∧ d1.week = d2.week ∧ d1.day_of_week = d2.day_of_week ∧
        d1.hebrew_date = d2.hebrew_date ∧ d1.gregorian_date = d2.gregorian_date) :=
  ⟨by decide, by decide,
   tradition_noninterference 10 none OmerTradition.sefardi OmerTradition.chassidic
     (by decide) (by decide)⟩

/-- Claim C9: constructing `OmerDay` with all non-day fields at their defaults
errors outside [1, 49]; inside [1, 49] it succeeds with non-empty text,
`sefirah_info` equal to the `DAILY_SEFIROT` entry, and the special-day flag
and info set exactly for ordinals 18 and 33. -/
theorem post_init_spec :
    (∀ n : Int, n < 1 ∨ 49 < n →
      mkOmerDay n "" "" "" none none none false none =
        Except.error ERROR_out_of_range_english) ∧
    (∀ n : Int, 1 ≤ n → n ≤ 49 →
      ∃ d, mkOmerDay n "" "" "" none none none false none = Except.ok d ∧
        d.text ≠ "" ∧
        d.sefirah_info ≠ none ∧ d.sefirah_info = DAILY_SEFIROT.lookup n ∧
        (d.is_special_day = true ↔ (n = 18 ∨ n = 33)) ∧
        ((n = 18 ∨ n = 33) → d.special_day_info = SPECIAL_DAYS.lookup n)) := by
  constructor
  · intro n h
    unfold mkOmerDay
    rw [if_pos (show ¬(1 ≤ n ∧ n ≤ 49) by omega)]
  · intro n h1 h2
    interval_cases n <;> exact ⟨_, rfl, by decide⟩

/-- Witness for C9: the out-of-range error at 50 and the enriched record at
the special ordinal 18. -/
theorem post_init_spec_witness :
    ((50 : Int) < 1 ∨ (49 : Int) < 50) ∧
      mkOmerDay 50 "" "" "" none none none false none =
        Except.error ERROR_out_of_range_english ∧
      (1 : Int) ≤ 18 ∧ (18 : Int) ≤ 49 ∧
      (∃ d, mkOmerDay 18 "" "" "" none none none false none = Except.ok d ∧
        d.text ≠ "" ∧
        d.sefirah_info ≠ none ∧ d.sefirah_info = DAILY_SEFIROT.lookup 18 ∧
        (d.is_special_day = true ↔ ((18 : Int) = 18 ∨ (18 : Int) = 33)) ∧
        (((18 : Int) = 18 ∨ (18 : Int) = 33) → d.special_day_info = SPECIAL_DAYS.lookup 18)) :=
  ⟨by decide, post_init_spec.1 50 (by decide), by decide, by decide,
   post_init_spec.2 18 (by decide) (by decide)⟩

/-- Claim C10: the integrity pass returns (a list, rather than raising) and
passes on the shipped data — `validate_data_integrity` is empty, and every
ordinal 1..49 indeed has a non-empty primary text, transliteration, English
text and Sefirah combination in the shipped tables. -/
theorem integrity_spec :
    validate_data_integrity = [] ∧
    (∀ n : Int, 1 ≤ n → n ≤ 49 →
      ∃ t tr en s, OMER_TEXTS.lookup n = some t ∧ t ≠ "" ∧
        OMER_TRANSLITERATIONS.lookup n = some tr ∧ tr ≠ "" ∧
        OMER_ENGLISH_TRANSLATIONS.lookup n = some en ∧ en ≠ "" ∧
        DAILY_SEFIROT.lookup n = some s ∧ s.combination ≠ "") := by
  refine ⟨by decide, fun n h1 h2 => ?_⟩
  interval_cases n <;>
    exact ⟨_, _, _, _, rfl, by decide, rfl, by decide, rfl, by decide, rfl, by decide⟩

/-- Witness for C10: the four table entries at ordinal 7. -/
theorem integrity_spec_witness :
    (1 : Int) ≤ 7 ∧ (7 : Int) ≤ 49 ∧
      (∃ t tr en s, OMER_TEXTS.lookup 7 = some t ∧ t ≠ "" ∧
        OMER_TRANSLITERATIONS.lookup 7 = some tr ∧ tr ≠ "" ∧
        OMER_ENGLISH_TRANSLATIONS.lookup 7 = some en ∧ en ≠ "" ∧
        DAILY_SEFIROT.lookup 7 = some s ∧ s.combination ≠ "") :=
  ⟨by decide, by decide, integrity_spec.2 7 (by decide) (by decide)⟩
